import Mathlib

/-!
Verification of the GPT-Bus trip/rider/payment ledger.

The definitions below are a shallow embedding of the SQLite-backed Express
routes of the repository: each table is a list of rows, each route handler a
function on the whole store.  Monetary amounts and seat counts are integers
(`Int`), ids are `Nat`, SQL `NULL`-able aggregates are `Option Int`.
-/

namespace GPTBus

/-- Row of the `trips` table (server.js `CREATE TABLE trips`); `created_at` is
omitted because no modelled route reads it. -/
structure Trip where
  id : Nat
  name : String
  startDate : String
  endDate : String
  costOfRental : Int
  costPerSeat : Int
  totalSeats : Int
  isActive : Bool
deriving DecidableEq

/-- Row of the `riders` table (address columns omitted: no modelled logic reads
them). -/
structure Rider where
  id : Nat
  name : String
  email : String
  phone : String
deriving DecidableEq

/-- Row of the `trip_riders` association table; `PRIMARY KEY(trip_id, rider_id)`. -/
structure TripRider where
  tripId : Nat
  riderId : Nat
  seats : Int
  balance : Int
  instructionsSent : Bool
deriving DecidableEq

/-- Row of the `payments` table. -/
structure Payment where
  id : Nat
  riderId : Nat
  tripId : Nat
  date : String
  amount : Int
deriving DecidableEq

/-- Row of the `emergency_contacts` table. -/
structure EmergencyContact where
  id : Nat
  riderId : Nat
  contactOrder : Nat
  name : String
  phone : String
deriving DecidableEq

/-- Row of the `medical_notes` table. -/
structure MedicalNote where
  riderId : Nat
  notes : String
deriving DecidableEq

/-- The whole database. -/
structure Store where
  trips : List Trip
  riders : List Rider
  tripRiders : List TripRider
  payments : List Payment
  emergencyContacts : List EmergencyContact
  medicalNotes : List MedicalNote
deriving DecidableEq

/-- `UPDATE trips SET is_active = 0` (first statement of the activate route). -/
def deactivateAll (s : Store) : Store :=
  { s with trips := s.trips.map fun t => { t with isActive := false } }

/-- `UPDATE trips SET is_active = 1 WHERE id = ?` (second statement). -/
def setActiveById (s : Store) (tripId : Nat) : Store :=
  { s with trips := s.trips.map fun t =>
      if t.id == tripId then { t with isActive := true } else t }

/-- `POST /trip/:id/activate` (server.js 892-903, src/routes/trips.js 158-171):
both statements run in order inside `db.serialize`; there is no check that the
id exists. -/
def activateTrip (s : Store) (tripId : Nat) : Store :=
  setActiveById (deactivateAll s) tripId

/-- A sequence of activate calls, applied left to right. -/
def applyActivations (s : Store) (ids : List Nat) : Store :=
  ids.foldl activateTrip s

/-- Number of trips with `is_active = 1`. -/
def activeCount (s : Store) : Nat :=
  s.trips.countP (·.isActive)

/-- The ids present in the `trips` table. -/
def tripIds (s : Store) : List Nat :=
  s.trips.map (·.id)

/-- Whether some trip row has the given id. -/
def hasTripId (s : Store) (i : Nat) : Bool :=
  s.trips.any (·.id == i)

/-- The `id INTEGER PRIMARY KEY` constraint of the `trips` table. -/
def tripIdsUnique (s : Store) : Prop :=
  (tripIds s).Nodup

instance (s : Store) : Decidable (tripIdsUnique s) :=
  inferInstanceAs (Decidable ((tripIds s).Nodup))

theorem activateTrip_trips (s : Store) (i : Nat) :
    (activateTrip s i).trips = s.trips.map fun t =>
      if t.id == i then { t with isActive := true } else { t with isActive := false } := by
  show (s.trips.map _).map _ = _
  rw [List.map_map]
  refine List.map_congr_left fun t _ => ?_
  by_cases h : t.id == i <;> simp [Function.comp, h]

theorem isActive_activateImage (t : Trip) (i : Nat) :
    (if t.id == i then { t with isActive := true } else { t with isActive := false }).isActive
      = (t.id == i) := by
  by_cases h : t.id == i <;> simp [h]

theorem countP_isActive_after (l : List Trip) (i : Nat) :
    (l.map fun t =>
        if t.id == i then { t with isActive := true } else { t with isActive := false }).countP
        (·.isActive)
      = l.countP (·.id == i) := by
  induction l with
  | nil => rfl
  | cons t ts ih =>
    simp only [List.map_cons, List.countP_cons, ih, isActive_activateImage]

theorem countP_id_of_nodup (l : List Trip) (i : Nat) (h : (l.map (·.id)).Nodup) :
    l.countP (·.id == i) = if l.any (·.id == i) then 1 else 0 := by
  induction l with
  | nil => rfl
  | cons t ts ih =>
    simp only [List.map_cons, List.nodup_cons] at h
    by_cases hid : t.id = i
    · have hz : ts.countP (·.id == i) = 0 := by
        rw [List.countP_eq_zero]
        intro b hb hbi
        exact h.1 (hid ▸ (by simpa using hbi) ▸ List.mem_map_of_mem (·.id) hb)
      simp [List.countP_cons, List.any_cons, hid, hz]
    · simp only [List.countP_cons, List.any_cons, ih h.2]
      simp [hid]

theorem tripIds_activateTrip (s : Store) (i : Nat) :
    tripIds (activateTrip s i) = tripIds s := by
  show (activateTrip s i).trips.map (·.id) = _
  rw [activateTrip_trips, List.map_map]
  refine List.map_congr_left fun t _ => ?_
  by_cases h : t.id == i <;> simp [Function.comp, h]

theorem tripIds_applyActivations (s : Store) (ids : List Nat) :
    tripIds (applyActivations s ids) = tripIds s := by
  induction ids generalizing s with
  | nil => rfl
  | cons i rest ih =>
    show tripIds (applyActivations (activateTrip s i) rest) = _
    rw [ih, tripIds_activateTrip]

theorem any_id_eq_any_tripIds (l : List Trip) (i : Nat) :
    l.any (·.id == i) = (l.map (·.id)).any (· == i) := by
  induction l with
  | nil => rfl
  | cons t ts ih => simp only [List.map_cons, List.any_cons, ih]

theorem hasTripId_eq_of_tripIds (s₁ s₂ : Store) (i : Nat)
    (h : tripIds s₁ = tripIds s₂) : hasTripId s₁ i = hasTripId s₂ i := by
  show s₁.trips.any (·.id == i) = s₂.trips.any (·.id == i)
  rw [any_id_eq_any_tripIds, any_id_eq_any_tripIds]
  exact congrArg (List.any · (· == i)) h

theorem activeCount_activateTrip (s : Store) (i : Nat) (hu : tripIdsUnique s) :
    activeCount (activateTrip s i) = if hasTripId s i then 1 else 0 := by
  show ((activateTrip s i).trips).countP (·.isActive) = _
  rw [activateTrip_trips, countP_isActive_after, countP_id_of_nodup s.trips i hu]
  rfl

theorem tripIdsUnique_applyActivations (s : Store) (ids : List Nat)
    (hu : tripIdsUnique s) : tripIdsUnique (applyActivations s ids) := by
  show (tripIds (applyActivations s ids)).Nodup
  rw [tripIds_applyActivations]
  exact hu

/-- C1 (amended): on a store whose trip ids are distinct, any sequence of
`activateTrip` calls leaves at most one trip active; after a nonempty sequence
the number of active trips is 1 when the last activated id exists and 0 when it
does not — so zero active trips can result even though activations happened. -/
theorem c1_amended_at_most_one_active (s : Store) (ids : List Nat)
    (hu : tripIdsUnique s) :
    (activeCount s ≤ 1 → activeCount (applyActivations s ids) ≤ 1)
    ∧ (∀ l i, ids = l ++ [i] →
        activeCount (applyActivations s ids) = if hasTripId s i then 1 else 0) := by
  constructor
  · intro hle
    rcases List.eq_nil_or_concat ids with hnil | ⟨l, i, hcat⟩
    · simpa [hnil, applyActivations] using hle
    · have hlast : applyActivations s ids = activateTrip (applyActivations s l) i := by
        rw [hcat]
        simp [applyActivations, List.foldl_concat]
      rw [hlast, activeCount_activateTrip _ _ (tripIdsUnique_applyActivations s l hu)]
      split <;> simp
  · intro l i hcat
    have hlast : applyActivations s ids = activateTrip (applyActivations s l) i := by
      rw [hcat]
      show List.foldl activateTrip s (l ++ [i]) = _
      rw [List.foldl_append]
      rfl
    rw [hlast, activeCount_activateTrip _ _ (tripIdsUnique_applyActivations s l hu),
      hasTripId_eq_of_tripIds _ _ _ (tripIds_applyActivations s l)]

/-- A store with a single, active trip (id 1). -/
def c1Store : Store :=
  { trips := [⟨1, "Beach Trip", "2024-01-01", "2024-01-07", 1000, 100, 10, true⟩]
    riders := [], tripRiders := [], payments := []
    emergencyContacts := [], medicalNotes := [] }

/-- C1 counterexample: activating the absent id 2 leaves zero trips active even
though the store had an active trip and an `activateTrip` call was made, so
"zero only if no trip was ever activated" fails on the code. -/
theorem c1_counterexample :
    activeCount (applyActivations c1Store [2]) = 0
    ∧ activeCount c1Store = 1
    ∧ ([2] : List Nat) ≠ [] := by
  refine ⟨by decide, by decide, by decide⟩

/-- Witness instantiating `c1_amended_at_most_one_active` at a concrete store. -/
theorem c1_amended_witness :
    tripIdsUnique c1Store
    ∧ (activeCount c1Store ≤ 1 → activeCount (applyActivations c1Store [1]) ≤ 1)
    ∧ (∀ l i, ([1] : List Nat) = l ++ [i] →
        activeCount (applyActivations c1Store [1]) = if hasTripId c1Store i then 1 else 0) :=
  ⟨by decide, (c1_amended_at_most_one_active c1Store [1] (by decide)).1,
    (c1_amended_at_most_one_active c1Store [1] (by decide)).2⟩

/-- C8 (amended): `activateTrip` performs no existence check and never signals
NotFound: it rewrites every trip row, activating exactly the rows whose id
matches the argument; when the id is absent every trip ends up inactive (the
previous flags are not preserved). -/
theorem c8_amended_activate_no_notfound (s : Store) (i : Nat) :
    ((activateTrip s i).trips = s.trips.map fun t =>
        if t.id == i then { t with isActive := true } else { t with isActive := false })
    ∧ (hasTripId s i = false → ∀ t ∈ (activateTrip s i).trips, t.isActive = false) := by
  refine ⟨activateTrip_trips s i, fun habs t ht => ?_⟩
  rw [activateTrip_trips] at ht
  rcases List.mem_map.mp ht with ⟨u, hu, rfl⟩
  have : (u.id == i) = false := by
    have := List.any_eq_false.mp habs u hu
    simpa using this
  simp [this]

/-- A store with a single, active trip (id 1), for the C8 counterexample. -/
def c8Store : Store :=
  { trips := [⟨1, "Mountain Trip", "2024-03-01", "2024-03-05", 2000, 120, 20, true⟩]
    riders := [], tripRiders := [], payments := []
    emergencyContacts := [], medicalNotes := [] }

/-- C8 counterexample: activating the absent id 2 does not leave the active
flags as they were — the previously active trip 1 is silently deactivated and
the operation completes without any NotFound outcome. -/
theorem c8_counterexample :
    hasTripId c8Store 2 = false
    ∧ (activateTrip c8Store 2).trips ≠ c8Store.trips
    ∧ (activateTrip c8Store 2).trips.all (fun t => !t.isActive) = true := by
  refine ⟨by decide, by decide, by decide⟩

/-- Witness instantiating `c8_amended_activate_no_notfound` at a concrete store. -/
theorem c8_amended_witness :
    ((activateTrip c8Store 2).trips = c8Store.trips.map fun t =>
        if t.id == 2 then { t with isActive := true } else { t with isActive := false })
    ∧ (hasTripId c8Store 2 = false)
    ∧ (∀ t ∈ (activateTrip c8Store 2).trips, t.isActive = false) :=
  ⟨(c8_amended_activate_no_notfound c8Store 2).1, by decide,
    (c8_amended_activate_no_notfound c8Store 2).2 (by decide)⟩

/-- `SELECT * FROM trips WHERE is_active = 1` via `db.get` (first matching row). -/
def getActiveTrip (s : Store) : Option Trip :=
  s.trips.find? (·.isActive)

/-- The payment rows joined to one rider by
`LEFT JOIN payments p ON r.id = p.rider_id`: when the rider has no payment at
all, the left join still emits one all-NULL payment row, so the group below is
never empty. -/
def leftJoinPayments (s : Store) (riderId : Nat) : List (Option Payment) :=
  if (s.payments.filter (·.riderId == riderId)).isEmpty then [none]
  else (s.payments.filter (·.riderId == riderId)).map some

/-- `CASE WHEN p.trip_id = tr.trip_id THEN p.amount ELSE 0 END`; the NULL row
of the left join falls into the ELSE branch. -/
def caseTripAmount (tripId : Nat) : Option Payment → Int
  | none => 0
  | some p => if p.tripId == tripId then p.amount else 0

/-- SQL `SUM`: NULL over an empty group, the sum otherwise. -/
def sqlSum (xs : List Int) : Option Int :=
  if xs.isEmpty then none else some (xs.foldl (· + ·) 0)

/-- `SUM(CASE WHEN p.trip_id = tr.trip_id THEN p.amount ELSE 0 END) AS
total_payments` for the group of one rider on one trip. -/
def totalPaymentsOpt (s : Store) (tripId riderId : Nat) : Option Int :=
  sqlSum ((leftJoinPayments s riderId).map (caseTripAmount tripId))

/-- One row rendered by the dashboard for a rider of the active trip. -/
structure DashboardRow where
  riderId : Nat
  seats : Int
  collected : Int
  remainingBalance : Int
deriving DecidableEq

/-- The rider query of `GET /dashboard` (server.js 147-156): riders INNER JOIN
trip_riders for the active trip, one group per rider; `collected` is the JS
`rider.total_payments || 0` and `remainingBalance` the SQL
`tr.balance - COALESCE(SUM(...), 0)`. -/
def dashboardRows (s : Store) (trip : Trip) : List DashboardRow :=
  (s.tripRiders.filter fun tr =>
      tr.tripId == trip.id && s.riders.any (·.id == tr.riderId)).map fun tr =>
    let tp := totalPaymentsOpt s tr.tripId tr.riderId
    { riderId := tr.riderId
      seats := tr.seats
      collected := tp.getD 0
      remainingBalance := tr.balance - tp.getD 0 }

/-- The aggregate values computed by `GET /dashboard` (server.js 161-170). -/
structure DashboardView where
  rows : List DashboardRow
  totalCollected : Int
  remainingFunds : Int
  reservedSeats : Int
  remainingSeats : Int
deriving DecidableEq

/-- `GET /dashboard`: none when no trip is active (the route redirects away). -/
def getDashboard (s : Store) : Option DashboardView :=
  (getActiveTrip s).map fun trip =>
    let rows := dashboardRows s trip
    let tc := rows.foldl (fun a r => a + r.collected) 0
    let rs := rows.foldl (fun a r => a + r.seats) 0
    { rows := rows
      totalCollected := tc
      remainingFunds := trip.costOfRental - tc
      reservedSeats := rs
      remainingSeats := trip.totalSeats - rs }

/-- `POST /add-trip`: INSERT INTO trips, `is_active` defaulting to 0. -/
def createTrip (s : Store) (id : Nat) (name startDate endDate : String)
    (costOfRental costPerSeat totalSeats : Int) : Store :=
  { s with trips := s.trips ++
      [⟨id, name, startDate, endDate, costOfRental, costPerSeat, totalSeats, false⟩] }

/-- Outcome of `POST /add-rider`. -/
inductive AddRiderResult
  | noActiveTrip
  | ok
deriving DecidableEq

/-- `POST /add-rider` (server.js 290-323): requires the active trip (otherwise
redirects to /trips without touching the store); inserts the rider row and a
trip_riders row with `balance = seats * cost_per_seat`. -/
def addRider (s : Store) (riderId : Nat) (name email phone : String) (seats : Int) :
    Store × AddRiderResult :=
  match getActiveTrip s with
  | none => (s, .noActiveTrip)
  | some trip =>
      ({ s with
          riders := s.riders ++ [⟨riderId, name, email, phone⟩]
          tripRiders := s.tripRiders ++
            [⟨trip.id, riderId, seats, seats * trip.costPerSeat, false⟩] },
        .ok)

/-- Outcome of `POST /add-payment/:riderId`; `ok` carries whether the receipt
email failed, which only changes the flash message of the redirect. -/
inductive AddPaymentResult
  | noActiveTrip
  | ok (receiptEmailFailed : Bool)
deriving DecidableEq

/-- `POST /add-payment/:riderId` (server.js 481-612, src/routes/payments.js
51-96): requires the active trip; inserts the payment tagged with the active
trip id; then calls the Notifier, whose error is only logged (server.js) or
flashed as a warning (payments.js) — both branches answer with the same
redirect to the rider's payment page. -/
def addPayment (s : Store) (paymentId riderId : Nat) (date : String) (amount : Int)
    (notifierFails : Bool) : Store × AddPaymentResult :=
  match getActiveTrip s with
  | none => (s, .noActiveTrip)
  | some trip =>
      ({ s with payments := s.payments ++ [⟨paymentId, riderId, trip.id, date, amount⟩] },
        .ok notifierFails)

/-- The empty database. -/
def emptyStore : Store :=
  ⟨[], [], [], [], [], []⟩

/-- The store built by the C2 scenario: create and activate a trip with
cost_of_rental 1000, cost_per_seat 100, total_seats 10; add rider A with two
seats; record a payment of 150 for A. -/
def c2Store : Store :=
  let s1 := createTrip emptyStore 1 "Spring Trip" "2024-01-01" "2024-01-07" 1000 100 10
  let s2 := activateTrip s1 1
  let s3 := (addRider s2 1 "Rider A" "a@example.com" "555-0100" 2).1
  (addPayment s3 1 1 "2024-02-01" 150 false).1

/-- C2: in the scenario store, rider A's TripRider balance is 2 x 100 = 200 and
the dashboard reports collected 150, remaining balance 50, total collected 150,
remaining funds 850, reserved seats 2, remaining seats 8. -/
theorem c2_scenario_balances :
    c2Store.tripRiders.map (·.balance) = [200]
    ∧ getDashboard c2Store = some
        { rows := [{ riderId := 1, seats := 2, collected := 150, remainingBalance := 50 }]
          totalCollected := 150
          remainingFunds := 850
          reservedSeats := 2
          remainingSeats := 8 } :=
  ⟨rfl, rfl⟩

theorem leftJoinPayments_ne_nil (s : Store) (rid : Nat) :
    leftJoinPayments s rid ≠ [] := by
  unfold leftJoinPayments
  split
  · simp
  · rename_i he
    intro hcon
    rw [List.map_eq_nil_iff] at hcon
    exact he (by simp [hcon])

theorem mem_leftJoinPayments (s : Store) (rid : Nat) (op : Option Payment)
    (h : op ∈ leftJoinPayments s rid) :
    op = none ∨ ∃ p, op = some p ∧ p ∈ s.payments ∧ p.riderId = rid := by
  unfold leftJoinPayments at h
  split at h
  · exact Or.inl (by simpa using h)
  · rcases List.mem_map.mp h with ⟨p, hp, rfl⟩
    rcases List.mem_filter.mp hp with ⟨hps, hpr⟩
    exact Or.inr ⟨p, rfl, hps, by simpa using hpr⟩

theorem foldl_add_zeros (xs : List Int) (h : ∀ x ∈ xs, x = 0) :
    xs.foldl (· + ·) 0 = 0 := by
  suffices hgen : ∀ a : Int, xs.foldl (· + ·) a = a by exact hgen 0
  induction xs with
  | nil => intro a; rfl
  | cons x rest ih =>
    intro a
    have hx : x = 0 := h x (List.mem_cons_self x rest)
    have hrest : ∀ y ∈ rest, y = 0 := fun y hy => h y (List.mem_cons_of_mem x hy)
    simp only [List.foldl_cons, hx, add_zero]
    exact ih hrest a

theorem sqlSum_of_zeros (xs : List Int) (hne : xs ≠ []) (h : ∀ x ∈ xs, x = 0) :
    sqlSum xs = some 0 := by
  unfold sqlSum
  rw [if_neg (by simpa [List.isEmpty_iff] using hne)]
  exact congrArg some (foldl_add_zeros xs h)

/-- C3: a rider associated with the active trip who has no payment row for that
trip is reported with `collected = 0` — the SQL aggregate is `some 0`, never
NULL — and `remaining_balance` equal to the full TripRider balance. -/
theorem c3_zero_payments_full_balance (s : Store) (trip : Trip) (tr : TripRider)
    (_hact : getActiveTrip s = some trip)
    (hmem : tr ∈ s.tripRiders)
    (htrip : tr.tripId = trip.id)
    (hrid : s.riders.any (·.id == tr.riderId) = true)
    (hnopay : ∀ p ∈ s.payments, p.riderId = tr.riderId → p.tripId ≠ trip.id) :
    totalPaymentsOpt s trip.id tr.riderId = some 0
    ∧ ({ riderId := tr.riderId, seats := tr.seats, collected := 0,
         remainingBalance := tr.balance } : DashboardRow) ∈ dashboardRows s trip := by
  have htp : totalPaymentsOpt s trip.id tr.riderId = some 0 := by
    unfold totalPaymentsOpt
    apply sqlSum_of_zeros
    · intro hcon
      exact leftJoinPayments_ne_nil s tr.riderId (List.map_eq_nil_iff.mp hcon)
    · intro x hx
      rcases List.mem_map.mp hx with ⟨op, hop, rfl⟩
      rcases mem_leftJoinPayments s tr.riderId op hop with rfl | ⟨p, rfl, hps, hpr⟩
      · rfl
      · have hne : p.tripId ≠ trip.id := hnopay p hps hpr
        simp [caseTripAmount, hne]
  refine ⟨htp, ?_⟩
  apply List.mem_map.mpr
  refine ⟨tr, List.mem_filter.mpr ⟨hmem, by simp [htrip, hrid]⟩, ?_⟩
  show ({ riderId := tr.riderId, seats := tr.seats,
          collected := (totalPaymentsOpt s tr.tripId tr.riderId).getD 0,
          remainingBalance :=
            tr.balance - (totalPaymentsOpt s tr.tripId tr.riderId).getD 0 } : DashboardRow) = _
  rw [htrip, htp]
  simp

/-- The active trip of the C3 witness store. -/
def c3Trip : Trip :=
  ⟨1, "Fall Trip", "2024-05-01", "2024-05-02", 1000, 100, 10, true⟩

/-- Rider 7's association with trip 1 in the C3 witness store. -/
def c3TripRider : TripRider :=
  ⟨1, 7, 3, 300, false⟩

/-- C3 witness store: rider 7 is on active trip 1 with no payment for it; the
payments table still holds a payment by another rider and a payment by rider 7
for a different trip. -/
def c3Store : Store :=
  { trips := [c3Trip]
    riders := [⟨7, "Rider B", "b@example.com", "555-0101"⟩]
    tripRiders := [c3TripRider]
    payments := [⟨9, 8, 1, "2024-04-01", 40⟩, ⟨10, 7, 2, "2024-04-02", 60⟩]
    emergencyContacts := [], medicalNotes := [] }

/-- Witness instantiating `c3_zero_payments_full_balance` at a concrete store. -/
theorem c3_witness :
    (getActiveTrip c3Store = some c3Trip
     ∧ c3TripRider ∈ c3Store.tripRiders
     ∧ c3TripRider.tripId = c3Trip.id
     ∧ c3Store.riders.any (·.id == c3TripRider.riderId) = true
     ∧ (∀ p ∈ c3Store.payments, p.riderId = c3TripRider.riderId → p.tripId ≠ c3Trip.id))
    ∧ (totalPaymentsOpt c3Store c3Trip.id c3TripRider.riderId = some 0
       ∧ ({ riderId := c3TripRider.riderId, seats := c3TripRider.seats, collected := 0,
            remainingBalance := c3TripRider.balance } : DashboardRow)
          ∈ dashboardRows c3Store c3Trip) :=
  ⟨⟨by decide, by decide, by decide, by decide, by decide⟩,
    c3_zero_payments_full_balance c3Store c3Trip c3TripRider
      (by decide) (by decide) (by decide) (by decide) (by decide)⟩

/-- C9: `addPayment` requires an active trip (no insert happens without one)
and inserts the payment tagged with the active trip's id; a Notifier failure
after the insert does not roll the payment back — the stored rows are the same
whether the receipt email fails or not, and the operation still answers with
the success redirect. -/
theorem c9_notifier_failure_no_rollback (s : Store) (paymentId riderId : Nat)
    (date : String) (amount : Int) (trip : Trip)
    (hact : getActiveTrip s = some trip) :
    (∀ nf, (addPayment s paymentId riderId date amount nf).1.payments
        = s.payments ++ [⟨paymentId, riderId, trip.id, date, amount⟩])
    ∧ (addPayment s paymentId riderId date amount true).2 = .ok true
    ∧ (addPayment s paymentId riderId date amount true).1
        = (addPayment s paymentId riderId date amount false).1
    ∧ (∀ s2 : Store, getActiveTrip s2 = none →
        ∀ nf, addPayment s2 paymentId riderId date amount nf = (s2, .noActiveTrip)) := by
  refine ⟨fun nf => ?_, ?_, ?_, fun s2 hnone nf => ?_⟩
  · simp [addPayment, hact]
  · simp [addPayment, hact]
  · simp [addPayment, hact]
  · simp [addPayment, hnone]

/-- The active trip of the C9 witness store. -/
def c9Trip : Trip :=
  ⟨3, "Lake Trip", "2024-06-01", "2024-06-03", 1500, 75, 20, true⟩

/-- C9 witness store: trip 3 active, rider 4 present. -/
def c9Store : Store :=
  { trips := [⟨2, "Old Trip", "2023-06-01", "2023-06-03", 900, 60, 15, false⟩, c9Trip]
    riders := [⟨4, "Rider C", "c@example.com", "555-0102"⟩]
    tripRiders := [⟨3, 4, 1, 75, false⟩]
    payments := [], emergencyContacts := [], medicalNotes := [] }

/-- Witness instantiating `c9_notifier_failure_no_rollback` at a concrete store. -/
theorem c9_witness :
    getActiveTrip c9Store = some c9Trip
    ∧ ((∀ nf, (addPayment c9Store 1 4 "2024-06-02" 50 nf).1.payments
          = c9Store.payments ++ [⟨1, 4, c9Trip.id, "2024-06-02", 50⟩])
       ∧ (addPayment c9Store 1 4 "2024-06-02" 50 true).2 = .ok true
       ∧ (addPayment c9Store 1 4 "2024-06-02" 50 true).1
          = (addPayment c9Store 1 4 "2024-06-02" 50 false).1
       ∧ (∀ s2 : Store, getActiveTrip s2 = none →
          ∀ nf, addPayment s2 1 4 "2024-06-02" 50 nf = (s2, .noActiveTrip))) :=
  ⟨by decide, c9_notifier_failure_no_rollback c9Store 1 4 "2024-06-02" 50 c9Trip (by decide)⟩

/-- The five DELETE statements a complete rider deletion can touch. -/
inductive DeleteStep
  | tripRiders
  | emergencyContacts
  | medicalNotes
  | payments
  | riders
deriving DecidableEq

/-- The statement order of `GET /delete-rider/:id/complete`
(server.js 426-436), exactly as written in the source. -/
def completeDeleteOrder : List DeleteStep :=
  [.tripRiders, .emergencyContacts, .medicalNotes, .payments, .riders]

/-- The order demanded by the spec and by the repo's own test
`riders-complete-deletion.test.js`: EmergencyContacts, Payments, TripRiders,
Rider (no medical-notes statement). -/
def specDeleteOrder : List DeleteStep :=
  [.emergencyContacts, .payments, .tripRiders, .riders]

/-- Effect of one successful DELETE statement for the given rider id. -/
def applyDeleteStep (riderId : Nat) (s : Store) : DeleteStep → Store
  | .tripRiders =>
      { s with tripRiders := s.tripRiders.filter fun x => !(x.riderId == riderId) }
  | .emergencyContacts =>
      { s with emergencyContacts :=
          s.emergencyContacts.filter fun x => !(x.riderId == riderId) }
  | .medicalNotes =>
      { s with medicalNotes := s.medicalNotes.filter fun x => !(x.riderId == riderId) }
  | .payments =>
      { s with payments := s.payments.filter fun x => !(x.riderId == riderId) }
  | .riders =>
      { s with riders := s.riders.filter fun x => !(x.id == riderId) }

/-- `GET /delete-rider/:id/complete` (server.js 421-437): the five statements
run in `completeDeleteOrder`; only the last one has an error callback. -/
def deleteRiderCompletely (s : Store) (riderId : Nat) : Store :=
  completeDeleteOrder.foldl (applyDeleteStep riderId) s

/-- The same route when some statements error: a failed statement changes
nothing, and — since the first four statements have no callbacks — the
remaining statements still run. -/
def deleteRiderCompletelyFaulty (fails : DeleteStep → Bool) (s : Store)
    (riderId : Nat) : Store :=
  completeDeleteOrder.foldl
    (fun acc st => if fails st then acc else applyDeleteStep riderId acc st) s

/-- Store for the C4 evidence: rider 1 has a row in every satellite table. -/
def c4Store : Store :=
  { trips := [⟨1, "City Trip", "2024-07-01", "2024-07-02", 800, 80, 10, true⟩]
    riders := [⟨1, "Rider D", "d@example.com", "555-0103"⟩]
    tripRiders := [⟨1, 1, 2, 160, false⟩]
    payments := [⟨1, 1, 1, "2024-07-01", 30⟩]
    emergencyContacts := [⟨1, 1, 1, "Contact D", "555-0104"⟩]
    medicalNotes := [⟨1, "peanut allergy"⟩] }

/-- C4 (code-bug evidence): the complete deletion route deletes `trip_riders`
first — its statement order is not the claimed EmergencyContacts, Payments,
TripRiders, Rider order that the repository's own deletion test asserts —
although the end state does remove every row for the rider. -/
theorem c4_delete_order_diverges :
    completeDeleteOrder.head? = some DeleteStep.tripRiders
    ∧ completeDeleteOrder ≠ specDeleteOrder
    ∧ (deleteRiderCompletely c4Store 1).tripRiders = []
    ∧ (deleteRiderCompletely c4Store 1).emergencyContacts = []
    ∧ (deleteRiderCompletely c4Store 1).payments = []
    ∧ (deleteRiderCompletely c4Store 1).riders = [] := by
  refine ⟨by decide, by decide, by decide, by decide, by decide, by decide⟩

/-- Store for the C5 evidence: rider 1 has a trip_riders row and a payment. -/
def c5Store : Store :=
  { trips := [⟨1, "River Trip", "2024-08-01", "2024-08-02", 600, 60, 10, true⟩]
    riders := [⟨1, "Rider E", "e@example.com", "555-0105"⟩]
    tripRiders := [⟨1, 1, 1, 60, false⟩]
    payments := [⟨1, 1, 1, "2024-08-01", 20⟩]
    emergencyContacts := [], medicalNotes := [] }

/-- Failure pattern forcing only the payments DELETE to error. -/
def failPaymentsOnly : DeleteStep → Bool :=
  fun st => st == .payments

/-- C5 (code-bug evidence): when the payments DELETE fails, the route neither
aborts nor leaves the other tables untouched — `trip_riders` was already
cleared before the failing statement and the `riders` row is still deleted
after it, while the payment row survives. -/
theorem c5_no_fail_fast :
    c5Store.tripRiders ≠ []
    ∧ c5Store.riders ≠ []
    ∧ (deleteRiderCompletelyFaulty failPaymentsOnly c5Store 1).payments = c5Store.payments
    ∧ (deleteRiderCompletelyFaulty failPaymentsOnly c5Store 1).tripRiders = []
    ∧ (deleteRiderCompletelyFaulty failPaymentsOnly c5Store 1).riders = [] := by
  refine ⟨by decide, by decide, by decide, by decide, by decide⟩

/-- `SELECT COUNT(*) AS paymentCount FROM payments WHERE rider_id = ?`. -/
def paymentCount (s : Store) (riderId : Nat) : Nat :=
  (s.payments.filter (·.riderId == riderId)).length

/-- The simple delete, `GET /riders/:id/delete` (src/routes/riders.js 107-126)
and `GET /delete-rider/:id` (earlier server variant): if the rider has any
payment, redirect without deleting; otherwise run only
`DELETE FROM riders WHERE id = ?`. -/
def deleteRiderSimple (s : Store) (riderId : Nat) : Store :=
  if paymentCount s riderId > 0 then s
  else { s with riders := s.riders.filter fun r => !(r.id == riderId) }

/-- C10: for a rider with zero payments the simple delete removes the rider row
and nothing else — trip_riders, emergency_contacts, medical_notes (and
payments) are untouched by this operation. -/
theorem c10_simple_delete_frame (s : Store) (riderId : Nat)
    (h : ∀ p ∈ s.payments, p.riderId ≠ riderId) :
    (∀ r ∈ (deleteRiderSimple s riderId).riders, r.id ≠ riderId)
    ∧ (∀ r ∈ s.riders, r.id ≠ riderId → r ∈ (deleteRiderSimple s riderId).riders)
    ∧ (deleteRiderSimple s riderId).tripRiders = s.tripRiders
    ∧ (deleteRiderSimple s riderId).emergencyContacts = s.emergencyContacts
    ∧ (deleteRiderSimple s riderId).medicalNotes = s.medicalNotes
    ∧ (deleteRiderSimple s riderId).payments = s.payments := by
  have hcount : paymentCount s riderId = 0 := by
    unfold paymentCount
    rw [List.length_eq_zero]
    rw [List.filter_eq_nil_iff]
    intro p hp
    simpa using h p hp
  have hdef : deleteRiderSimple s riderId
      = { s with riders := s.riders.filter fun r => !(r.id == riderId) } := by
    unfold deleteRiderSimple
    rw [if_neg (by simp [hcount])]
  refine ⟨?_, ?_, by rw [hdef], by rw [hdef], by rw [hdef], by rw [hdef]⟩
  · intro r hr
    rw [hdef] at hr
    have := (List.mem_filter.mp hr).2
    simpa using this
  · intro r hr hne
    rw [hdef]
    exact List.mem_filter.mpr ⟨hr, by simpa using hne⟩

/-- C10 witness store: rider 5 has no payments but does have a trip_riders row,
an emergency contact and a medical note; rider 6 also exists. -/
def c10Store : Store :=
  { trips := [⟨1, "Park Trip", "2024-09-01", "2024-09-02", 500, 50, 10, true⟩]
    riders := [⟨5, "Rider F", "f@example.com", "555-0106"⟩,
               ⟨6, "Rider G", "g@example.com", "555-0107"⟩]
    tripRiders := [⟨1, 5, 1, 50, false⟩]
    payments := [⟨1, 6, 1, "2024-09-01", 25⟩]
    emergencyContacts := [⟨1, 5, 1, "Contact F", "555-0108"⟩]
    medicalNotes := [⟨5, "none"⟩] }

/-- Witness instantiating `c10_simple_delete_frame` at a concrete store. -/
theorem c10_witness :
    (∀ p ∈ c10Store.payments, p.riderId ≠ 5)
    ∧ ((∀ r ∈ (deleteRiderSimple c10Store 5).riders, r.id ≠ 5)
       ∧ (∀ r ∈ c10Store.riders, r.id ≠ 5 → r ∈ (deleteRiderSimple c10Store 5).riders)
       ∧ (deleteRiderSimple c10Store 5).tripRiders = c10Store.tripRiders
       ∧ (deleteRiderSimple c10Store 5).emergencyContacts = c10Store.emergencyContacts
       ∧ (deleteRiderSimple c10Store 5).medicalNotes = c10Store.medicalNotes
       ∧ (deleteRiderSimple c10Store 5).payments = c10Store.payments) :=
  ⟨by decide, c10_simple_delete_frame c10Store 5 (by decide)⟩

/-- One entry of an add-riders request body: a rider id and its seat count
(`parseInt(req.body.seats[id]) || 1`, already parsed). -/
structure AddEntry where
  riderId : Nat
  seats : Int
deriving DecidableEq

/-- The `(trip_id, rider_id)` composite PRIMARY KEY comparison. -/
def samePair (a b : TripRider) : Bool :=
  a.tripId == b.tripId && a.riderId == b.riderId

/-- `INSERT INTO trip_riders ...`: fails (none) when the composite primary key
would be violated. -/
def insertTripRider (rows : List TripRider) (tr : TripRider) :
    Option (List TripRider) :=
  if rows.any (samePair · tr) then none else some (rows ++ [tr])

/-- One INSERT of the transactional batch (server.js 1044-1053): a failed
INSERT (duplicate primary key) affects only itself — its error callback merely
sets the JS `success` flag, and a statement error inside a SQLite transaction
does not undo the other statements. -/
def txInsertStep (tripId : Nat) (costPerSeat : Int) (rows : List TripRider)
    (e : AddEntry) : List TripRider :=
  match insertTripRider rows ⟨tripId, e.riderId, e.seats, e.seats * costPerSeat, false⟩ with
  | none => rows
  | some rows2 => rows2

/-- `POST /trip/:id/add-riders` (server.js 997-1064): look the trip up, keep
only entries whose rider exists (`SELECT * FROM riders WHERE id IN (...)`),
then BEGIN TRANSACTION and INSERT each entry.  The `if (success)` check runs
synchronously before any INSERT callback has fired, so `success` is still true
and COMMIT is always issued — the ROLLBACK branch is unreachable dead code.
The committed table is therefore the fold of the individual inserts, with
failed ones skipped. -/
def addRidersToTripTx (s : Store) (tripId : Nat) (entries : List AddEntry) : Store :=
  match s.trips.find? (·.id == tripId) with
  | none => s
  | some trip =>
      if (entries.filter fun e => s.riders.any (·.id == e.riderId)).isEmpty then s
      else
        { s with tripRiders :=
            (List.foldl (txInsertStep tripId trip.costPerSeat) s.tripRiders
              (entries.filter fun e => s.riders.any (·.id == e.riderId))) }

/-- The `(trip_id, rider_id)` PRIMARY KEY invariant: no two rows of
`trip_riders` share the pair. -/
def pairUnique (rows : List TripRider) : Prop :=
  rows.Pairwise fun a b => a.tripId = b.tripId → a.riderId ≠ b.riderId

theorem samePair_eq_false (a b : TripRider) :
    samePair a b = false ↔ (a.tripId = b.tripId → a.riderId ≠ b.riderId) := by
  unfold samePair
  by_cases h1 : a.tripId = b.tripId <;> by_cases h2 : a.riderId = b.riderId <;>
    simp [h1, h2]

theorem samePair_eq_true (a b : TripRider) :
    samePair a b = true ↔ (a.tripId = b.tripId ∧ a.riderId = b.riderId) := by
  unfold samePair
  simp

theorem samePair_lit (x : TripRider) (tid rid : Nat) (st bal : Int) (fl : Bool) :
    samePair x ⟨tid, rid, st, bal, fl⟩ = (x.tripId == tid && x.riderId == rid) := rfl

theorem txInsertStep_cases (tripId : Nat) (c : Int) (rows : List TripRider)
    (e : AddEntry) :
    (txInsertStep tripId c rows e = rows
      ∧ rows.any (samePair · ⟨tripId, e.riderId, e.seats, e.seats * c, false⟩) = true)
    ∨ (txInsertStep tripId c rows e
        = rows ++ [⟨tripId, e.riderId, e.seats, e.seats * c, false⟩]
      ∧ rows.any (samePair · ⟨tripId, e.riderId, e.seats, e.seats * c, false⟩) = false) := by
  unfold txInsertStep insertTripRider
  by_cases hany : rows.any (samePair · ⟨tripId, e.riderId, e.seats, e.seats * c, false⟩)
  · exact Or.inl ⟨by rw [if_pos hany], hany⟩
  · exact Or.inr ⟨by rw [if_neg hany], by simpa using hany⟩

theorem txInsertStep_mem (tripId : Nat) (c : Int) (rows : List TripRider)
    (e : AddEntry) (x : TripRider) (hx : x ∈ rows) :
    x ∈ txInsertStep tripId c rows e := by
  rcases txInsertStep_cases tripId c rows e with ⟨heq, _⟩ | ⟨heq, _⟩
  · rw [heq]; exact hx
  · rw [heq]; exact List.mem_append_left _ hx

theorem txInsertStep_unique (tripId : Nat) (c : Int) (rows : List TripRider)
    (e : AddEntry) (hu : pairUnique rows) :
    pairUnique (txInsertStep tripId c rows e) := by
  rcases txInsertStep_cases tripId c rows e with ⟨heq, _⟩ | ⟨heq, hany⟩
  · rw [heq]; exact hu
  · rw [heq]
    refine List.pairwise_append.mpr ⟨hu, List.pairwise_singleton _ _, ?_⟩
    intro x hx y hy
    have hy2 : y = ⟨tripId, e.riderId, e.seats, e.seats * c, false⟩ := by simpa using hy
    subst hy2
    have hx0 : samePair x ⟨tripId, e.riderId, e.seats, e.seats * c, false⟩ = false := by
      have := List.any_eq_false.mp hany x hx
      simpa using this
    exact (samePair_eq_false x _).mp hx0

theorem txInsertFold_unique (tripId : Nat) (c : Int) (es : List AddEntry) :
    ∀ rows : List TripRider, pairUnique rows →
      pairUnique (es.foldl (txInsertStep tripId c) rows) := by
  induction es with
  | nil => intro rows h; exact h
  | cons a rest ih =>
    intro rows h
    exact ih (txInsertStep tripId c rows a) (txInsertStep_unique tripId c rows a h)

theorem txInsertStep_filter_pair (tripId : Nat) (c : Int) (rows : List TripRider)
    (e : AddEntry) (r : Nat)
    (hdup : rows.any (fun x => x.tripId == tripId && x.riderId == r) = true) :
    (txInsertStep tripId c rows e).filter (fun x => x.tripId == tripId && x.riderId == r)
      = rows.filter (fun x => x.tripId == tripId && x.riderId == r) := by
  rcases txInsertStep_cases tripId c rows e with ⟨heq, _⟩ | ⟨heq, hany⟩
  · rw [heq]
  · rw [heq, List.filter_append]
    have hne : e.riderId ≠ r := by
      intro hcon
      subst hcon
      rcases List.any_eq_true.mp hdup with ⟨x, hx, hpx⟩
      have hall := List.any_eq_false.mp hany x hx
      rw [samePair_lit] at hall
      exact hall hpx
    simp [hne]

theorem txInsertFold_filter_pair (tripId : Nat) (c : Int) (es : List AddEntry) (r : Nat) :
    ∀ rows : List TripRider,
      rows.any (fun x => x.tripId == tripId && x.riderId == r) = true →
      (es.foldl (txInsertStep tripId c) rows).filter
          (fun x => x.tripId == tripId && x.riderId == r)
        = rows.filter (fun x => x.tripId == tripId && x.riderId == r) := by
  induction es with
  | nil => intro rows _; rfl
  | cons a rest ih =>
    intro rows hdup
    have hdup2 : (txInsertStep tripId c rows a).any
        (fun x => x.tripId == tripId && x.riderId == r) = true := by
      rcases List.any_eq_true.mp hdup with ⟨x, hx, hpx⟩
      exact List.any_eq_true.mpr ⟨x, txInsertStep_mem tripId c rows a x hx, hpx⟩
    show (rest.foldl (txInsertStep tripId c) (txInsertStep tripId c rows a)).filter _ = _
    rw [ih (txInsertStep tripId c rows a) hdup2,
      txInsertStep_filter_pair tripId c rows a r hdup]

/-- C6: the batch add keeps the one-row-per-(trip, rider) invariant that the
composite PRIMARY KEY enforces, and an entry for an already-associated pair is
rejected without mutating that pair: the rows for the pair after the call are
exactly the rows before it (no second row created, existing row unchanged),
and a batch consisting of just such an entry leaves the store untouched. -/
theorem c6_pair_unique_and_duplicate_rejected (s : Store) (tripId : Nat)
    (entries : List AddEntry) :
    (pairUnique s.tripRiders →
      pairUnique (addRidersToTripTx s tripId entries).tripRiders)
    ∧ (∀ r : Nat,
        s.tripRiders.any (fun x => x.tripId == tripId && x.riderId == r) = true →
        (addRidersToTripTx s tripId entries).tripRiders.filter
            (fun x => x.tripId == tripId && x.riderId == r)
          = s.tripRiders.filter (fun x => x.tripId == tripId && x.riderId == r))
    ∧ (∀ e : AddEntry, s.riders.any (·.id == e.riderId) = true →
        s.tripRiders.any (fun x => x.tripId == tripId && x.riderId == e.riderId) = true →
        addRidersToTripTx s tripId [e] = s) := by
  refine ⟨?_, ?_, ?_⟩
  · intro hu
    unfold addRidersToTripTx
    cases hfind : s.trips.find? (·.id == tripId) with
    | none => exact hu
    | some trip =>
      split_ifs with he
      · exact hu
      · exact txInsertFold_unique tripId trip.costPerSeat _ s.tripRiders hu
  · intro r hdup
    unfold addRidersToTripTx
    cases hfind : s.trips.find? (·.id == tripId) with
    | none => rfl
    | some trip =>
      split_ifs with he
      · rfl
      · exact txInsertFold_filter_pair tripId trip.costPerSeat _ r s.tripRiders hdup
  · intro e hrid hdup
    unfold addRidersToTripTx
    cases hfind : s.trips.find? (·.id == tripId) with
    | none => rfl
    | some trip =>
      have hfilter : ([e].filter fun e2 => s.riders.any (·.id == e2.riderId)) = [e] := by
        simp [hrid]
      rw [hfilter]
      have hstep : txInsertStep tripId trip.costPerSeat s.tripRiders e = s.tripRiders := by
        rcases txInsertStep_cases tripId trip.costPerSeat s.tripRiders e with
          ⟨heq, _⟩ | ⟨_, hany⟩
        · exact heq
        · rcases List.any_eq_true.mp hdup with ⟨x, hx, hpx⟩
          have hall := List.any_eq_false.mp hany x hx
          rw [samePair_lit] at hall
          exact absurd hpx hall
      show ({ s with tripRiders :=
          txInsertStep tripId trip.costPerSeat s.tripRiders e } : Store) = s
      rw [hstep]

instance (a b : TripRider) :
    Decidable (a.tripId = b.tripId → a.riderId ≠ b.riderId) :=
  inferInstance

instance (rows : List TripRider) : Decidable (pairUnique rows) :=
  inferInstanceAs (Decidable (rows.Pairwise _))

/-- C6 witness store: rider 2 is already associated with trip 1; rider 3 is
not; both riders exist. -/
def c6Store : Store :=
  { trips := [⟨1, "Hill Trip", "2024-10-01", "2024-10-03", 1200, 100, 12, true⟩]
    riders := [⟨2, "Rider H", "h@example.com", "555-0109"⟩,
               ⟨3, "Rider I", "i@example.com", "555-0110"⟩]
    tripRiders := [⟨1, 2, 1, 100, false⟩]
    payments := [], emergencyContacts := [], medicalNotes := [] }

/-- The C6 witness batch: a fresh entry and a duplicate-pair entry. -/
def c6Entries : List AddEntry :=
  [⟨3, 1⟩, ⟨2, 2⟩]

/-- Witness instantiating `c6_pair_unique_and_duplicate_rejected` at a concrete
store and batch: the duplicate entry for the pair (1, 2) creates no second row
and leaves the existing row unchanged, and on its own it changes nothing. -/
theorem c6_witness :
    pairUnique c6Store.tripRiders
    ∧ c6Store.riders.any (·.id == 2) = true
    ∧ c6Store.tripRiders.any (fun x => x.tripId == 1 && x.riderId == 2) = true
    ∧ pairUnique (addRidersToTripTx c6Store 1 c6Entries).tripRiders
    ∧ (addRidersToTripTx c6Store 1 c6Entries).tripRiders.filter
          (fun x => x.tripId == 1 && x.riderId == 2)
        = c6Store.tripRiders.filter (fun x => x.tripId == 1 && x.riderId == 2)
    ∧ addRidersToTripTx c6Store 1 [⟨2, 2⟩] = c6Store :=
  ⟨by decide, by decide, by decide,
    (c6_pair_unique_and_duplicate_rejected c6Store 1 c6Entries).1 (by decide),
    (c6_pair_unique_and_duplicate_rejected c6Store 1 c6Entries).2.1 2 (by decide),
    (c6_pair_unique_and_duplicate_rejected c6Store 1 c6Entries).2.2 ⟨2, 2⟩
      (by decide) (by decide)⟩

/-- One loop iteration of the modular batch (src/routes/trips.js 79-93, and the
createServer variant): the INSERT runs on its own and its error is ignored, so
the row is added exactly when the rider exists (FOREIGN KEY) and the pair is
new (PRIMARY KEY); otherwise the iteration changes nothing. -/
def eachStep (s : Store) (tripId : Nat) (costPerSeat : Int)
    (rows : List TripRider) (e : AddEntry) : List TripRider :=
  if s.riders.any (·.id == e.riderId)
      && !(rows.any (samePair · ⟨tripId, e.riderId, e.seats, e.seats * costPerSeat, false⟩)) then
    rows ++ [⟨tripId, e.riderId, e.seats, e.seats * costPerSeat, false⟩]
  else rows

/-- `POST /trips/:id/add-riders` (src/routes/trips.js 63-95): redirect
untouched when no rider was selected or the trip is absent; otherwise insert
each entry independently, skipping the ones whose INSERT fails. -/
def addRidersToTripEach (s : Store) (tripId : Nat) (entries : List AddEntry) : Store :=
  if entries.isEmpty then s
  else
    match s.trips.find? (·.id == tripId) with
    | none => s
    | some trip =>
        { s with
            tripRiders := entries.foldl (eachStep s tripId trip.costPerSeat) s.tripRiders }

/-- The full observable outcome of `POST /trips/:id/add-riders`: the new store
and the response sent to the caller.  Every path of the handler — missing
selection, missing trip, and the end of the insert loop — answers with the
same bare `res.redirect("/trips")`, and each INSERT callback ignores its `err`
argument entirely (no flash, no log), so the response carries no information
about which entries failed. -/
def addRidersToTripEachRun (s : Store) (tripId : Nat) (entries : List AddEntry) :
    Store × String :=
  (addRidersToTripEach s tripId entries, "/trips")

theorem eachStep_mem (s : Store) (tripId : Nat) (c : Int) (rows : List TripRider)
    (e : AddEntry) (x : TripRider) (hx : x ∈ rows) :
    x ∈ eachStep s tripId c rows e := by
  unfold eachStep
  split
  · exact List.mem_append_left _ hx
  · exact hx

theorem eachFold_mem (s : Store) (tripId : Nat) (c : Int) (es : List AddEntry) :
    ∀ (rows : List TripRider) (x : TripRider), x ∈ rows →
      x ∈ es.foldl (eachStep s tripId c) rows := by
  induction es with
  | nil => intro rows x hx; exact hx
  | cons a rest ih =>
    intro rows x hx
    exact ih (eachStep s tripId c rows a) x (eachStep_mem s tripId c rows a x hx)

theorem eachStep_pair (s : Store) (tripId : Nat) (c : Int) (rows : List TripRider)
    (e : AddEntry) (hrid : s.riders.any (·.id == e.riderId) = true) :
    ∃ x ∈ eachStep s tripId c rows e, x.tripId = tripId ∧ x.riderId = e.riderId := by
  unfold eachStep
  by_cases hdup : rows.any (samePair · ⟨tripId, e.riderId, e.seats, e.seats * c, false⟩)
  · rw [if_neg (by simp [hdup])]
    rcases List.any_eq_true.mp hdup with ⟨x, hx, hpx⟩
    have := (samePair_eq_true x _).mp hpx
    exact ⟨x, hx, by simpa using this⟩
  · rw [if_pos (by simp [hrid, hdup])]
    exact ⟨⟨tripId, e.riderId, e.seats, e.seats * c, false⟩,
      List.mem_append_right _ (List.mem_singleton.mpr rfl), rfl, rfl⟩

theorem eachFold_pair (s : Store) (tripId : Nat) (c : Int) (es : List AddEntry) :
    ∀ (rows : List TripRider) (e : AddEntry), e ∈ es →
      s.riders.any (·.id == e.riderId) = true →
      ∃ x ∈ es.foldl (eachStep s tripId c) rows,
        x.tripId = tripId ∧ x.riderId = e.riderId := by
  induction es with
  | nil => intro rows e he; exact absurd he (List.not_mem_nil e)
  | cons a rest ih =>
    intro rows e he hrid
    rcases List.mem_cons.mp he with rfl | htail
    · rcases eachStep_pair s tripId c rows e hrid with ⟨x, hx, hpx⟩
      exact ⟨x, eachFold_mem s tripId c rest (eachStep s tripId c rows e) x hx, hpx⟩
    · exact ih (eachStep s tripId c rows a) e htail hrid

theorem eachFold_new (s : Store) (tripId : Nat) (c : Int) (es : List AddEntry) :
    ∀ (rows : List TripRider) (x : TripRider), x ∈ es.foldl (eachStep s tripId c) rows →
      x ∈ rows ∨ s.riders.any (·.id == x.riderId) = true := by
  induction es with
  | nil => intro rows x hx; exact Or.inl hx
  | cons a rest ih =>
    intro rows x hx
    rcases ih (eachStep s tripId c rows a) x hx with hmem | hany
    · unfold eachStep at hmem
      by_cases hc : (s.riders.any (·.id == a.riderId)
          && !(rows.any (samePair · ⟨tripId, a.riderId, a.seats, a.seats * c, false⟩))) = true
      · rw [if_pos hc] at hmem
        rcases List.mem_append.mp hmem with h1 | h2
        · exact Or.inl h1
        · have hx2 : x = ⟨tripId, a.riderId, a.seats, a.seats * c, false⟩ := by simpa using h2
          subst hx2
          simp only [Bool.and_eq_true] at hc
          exact Or.inr hc.1
      · rw [if_neg hc] at hmem
        exact Or.inl hmem
    · exact Or.inr hany

/-- C7 (amended): in the modular batch add, entries that fail (nonexistent
rider or already-associated pair) are skipped without aborting the batch:
every pre-existing association survives, every entry whose rider exists ends
up associated with the trip even when other entries of the batch fail, and an
entry whose rider does not exist contributes no new row.  The failures are
NOT reported, however: the response is the same bare /trips redirect whatever
the batch contained. -/
theorem c7_failing_entry_not_fatal (s : Store) (tripId : Nat)
    (entries : List AddEntry) (trip : Trip)
    (hfind : s.trips.find? (·.id == tripId) = some trip) :
    (∀ x ∈ s.tripRiders, x ∈ (addRidersToTripEach s tripId entries).tripRiders)
    ∧ (∀ e ∈ entries, s.riders.any (·.id == e.riderId) = true →
        ∃ x ∈ (addRidersToTripEach s tripId entries).tripRiders,
          x.tripId = tripId ∧ x.riderId = e.riderId)
    ∧ (∀ e ∈ entries, s.riders.any (·.id == e.riderId) = false →
        ∀ x ∈ (addRidersToTripEach s tripId entries).tripRiders,
          x.riderId = e.riderId → x ∈ s.tripRiders)
    ∧ (∀ entries2 : List AddEntry,
        (addRidersToTripEachRun s tripId entries).2
          = (addRidersToTripEachRun s tripId entries2).2) := by
  by_cases hemp : entries.isEmpty
  · have hnil : entries = [] := by simpa [List.isEmpty_iff] using hemp
    subst hnil
    exact ⟨fun x hx => by simpa [addRidersToTripEach] using hx,
      fun e he => absurd he (List.not_mem_nil e),
      fun e he => absurd he (List.not_mem_nil e),
      fun _ => rfl⟩
  · have hres : (addRidersToTripEach s tripId entries).tripRiders
        = entries.foldl (eachStep s tripId trip.costPerSeat) s.tripRiders := by
      unfold addRidersToTripEach
      rw [if_neg hemp, hfind]
    refine ⟨?_, ?_, ?_, fun _ => rfl⟩
    · intro x hx
      rw [hres]
      exact eachFold_mem s tripId trip.costPerSeat entries s.tripRiders x hx
    · intro e he hrid
      rw [hres]
      exact eachFold_pair s tripId trip.costPerSeat entries s.tripRiders e he hrid
    · intro e he habs x hx hxe
      rw [hres] at hx
      rcases eachFold_new s tripId trip.costPerSeat entries s.tripRiders x hx with h1 | h2
      · exact h1
      · rw [hxe] at h2
        simp [habs] at h2

/-- The trip of the C7 witness store. -/
def c7Trip : Trip :=
  ⟨1, "Canyon Trip", "2024-11-01", "2024-11-02", 1000, 100, 10, true⟩

/-- C7 witness store: only rider 1 exists; no association yet. -/
def c7Store : Store :=
  { trips := [c7Trip]
    riders := [⟨1, "Rider J", "j@example.com", "555-0111"⟩]
    tripRiders := []
    payments := [], emergencyContacts := [], medicalNotes := [] }

/-- The C7 witness batch: the first entry names the nonexistent rider 99 and
fails; the second names the existing rider 1. -/
def c7Entries : List AddEntry :=
  [⟨99, 1⟩, ⟨1, 2⟩]

/-- C7 counterexample: the failing entry is not reported.  A batch whose only
entry names the nonexistent rider 99 fails completely — the store is unchanged
— yet the caller receives exactly the same bare /trips redirect as for a batch
that succeeds, so the route reports nothing about the failure. -/
theorem c7_counterexample :
    (addRidersToTripEachRun c7Store 1 [⟨99, 1⟩]).2
      = (addRidersToTripEachRun c7Store 1 [⟨1, 1⟩]).2
    ∧ (addRidersToTripEachRun c7Store 1 [⟨99, 1⟩]).1 = c7Store
    ∧ (addRidersToTripEachRun c7Store 1 [⟨1, 1⟩]).1 ≠ c7Store := by
  refine ⟨by decide, by decide, by decide⟩

/-- Witness instantiating `c7_failing_entry_not_fatal` at a concrete store:
the failing first entry does not stop rider 1 from being added, and the
response does not depend on the batch. -/
theorem c7_witness :
    c7Store.trips.find? (·.id == 1) = some c7Trip
    ∧ (⟨1, 2⟩ : AddEntry) ∈ c7Entries
    ∧ c7Store.riders.any (·.id == 1) = true
    ∧ c7Store.riders.any (·.id == 99) = false
    ∧ (∃ x ∈ (addRidersToTripEach c7Store 1 c7Entries).tripRiders,
        x.tripId = 1 ∧ x.riderId = 1)
    ∧ (∀ x ∈ (addRidersToTripEach c7Store 1 c7Entries).tripRiders,
        x.riderId = 99 → x ∈ c7Store.tripRiders)
    ∧ (addRidersToTripEachRun c7Store 1 c7Entries).2
        = (addRidersToTripEachRun c7Store 1 []).2 :=
  ⟨by decide, by decide, by decide, by decide,
    (c7_failing_entry_not_fatal c7Store 1 c7Entries c7Trip (by decide)).2.1
      ⟨1, 2⟩ (by decide) (by decide),
    fun x hx hxe =>
      (c7_failing_entry_not_fatal c7Store 1 c7Entries c7Trip (by decide)).2.2.1
        ⟨99, 1⟩ (by decide) (by decide) x hx hxe,
    (c7_failing_entry_not_fatal c7Store 1 c7Entries c7Trip (by decide)).2.2.2 []⟩

end GPTBus
